import Mathlib

/-!
Verification of the message-monitor pipeline (`src/config.py`, `src/main.py`).

The program listens to inbound chat messages, filters them with
`should_process_message`, formats accepted messages with
`format_message_info`, and relays the formatted report to every recipient
in `TARGET_USERS`.  This file is a shallow embedding of that code:

* `Chat`, `User`, `Message` mirror the (read-only) message objects the
  handler consumes; optional string fields are `Option String`, and Python
  truthiness (`None` and `""` are both falsy) is modelled explicitly.
* `Config` collects the module-level configuration constants that the
  functions read as globals (`MIN_MESSAGE_LENGTH`, inclusion flags, ...);
  `defaultConfig` is the concrete instance found in `src/config.py`.
* `should_process_message` and `format_message_info` are direct
  translations; the current timestamp becomes an explicit parameter.
* `handle_message` is modelled as a function returning the list of
  observable effects (filter evaluation, format call, send attempts),
  with per-recipient send success given by an oracle `Int → Bool`
  standing for the try/except around each delivery.
-/

/-- Chat object attached to a message (`message.chat` in `src/main.py`).
`type` holds the enum's `.value` string (`"private"`, `"group"`, ...). -/
structure Chat where
  id : Int
  type : Option String
  title : Option String
  first_name : Option String
  username : Option String

/-- Sender object (`message.from_user`). -/
structure User where
  id : Int
  first_name : Option String
  last_name : Option String
  username : Option String
  is_self : Bool

/-- Inbound message as read by the handler.  `media` holds `str(message.media)`
for a media message and `none` otherwise; `reply_to_message`,
`forward_from`, `forward_from_chat` record the truthiness of those fields. -/
structure Message where
  id : Int
  chat : Option Chat
  from_user : Option User
  text : Option String
  caption : Option String
  media : Option String
  reply_to_message : Bool
  forward_from : Bool
  forward_from_chat : Bool

/-- The configuration globals imported from `src/config.py`. -/
structure Config where
  TARGET_USERS : List Int
  EXCLUDED_CHATS : List Int
  MIN_MESSAGE_LENGTH : Nat
  INCLUDE_MEDIA : Bool
  INCLUDE_PRIVATE_CHATS : Bool
  INCLUDE_GROUPS : Bool
  INCLUDE_CHANNELS : Bool

/-- The concrete values assigned in `src/config.py`. -/
def defaultConfig : Config :=
  { TARGET_USERS := [7517848621]
    EXCLUDED_CHATS := []
    MIN_MESSAGE_LENGTH := 1
    INCLUDE_MEDIA := true
    INCLUDE_PRIVATE_CHATS := true
    INCLUDE_GROUPS := true
    INCLUDE_CHANNELS := true }

/-- The chat-type block of `should_process_message` (`src/main.py` lines
121-128): when `message.chat.type` is set, the if/elif chain may reject the
message; otherwise it has no effect. -/
def chatTypeRejected (cfg : Config) : Option String → Bool
  | none => false
  | some t =>
    if t = "private" ∧ cfg.INCLUDE_PRIVATE_CHATS = false then true
    else if (t = "group" ∨ t = "supergroup") ∧ cfg.INCLUDE_GROUPS = false then true
    else if t = "channel" ∧ cfg.INCLUDE_CHANNELS = false then true
    else false

/-- The length check of `should_process_message` (line 131):
`message.text and len(message.text) < MIN_MESSAGE_LENGTH`.  Python
truthiness makes an empty text fall through, exactly like a missing one. -/
def textTooShort (cfg : Config) : Option String → Bool
  | none => false
  | some s => decide (s ≠ "" ∧ s.length < cfg.MIN_MESSAGE_LENGTH)

/-- `should_process_message` (`src/main.py` lines 109-138): the pure filter
predicate, with the configuration globals passed explicitly. -/
def should_process_message (cfg : Config) (m : Message) : Bool :=
  match m.chat with
  | none => false
  | some chat =>
    if chat.id ∈ cfg.EXCLUDED_CHATS then false
    else if chatTypeRejected cfg chat.type then false
    else if textTooShort cfg m.text then false
    else if m.media.isSome ∧ cfg.INCLUDE_MEDIA = false then false
    else true

/-- A private chat used by the concrete test instances. -/
def privChat : Chat :=
  { id := 5
    type := some "private"
    title := none
    first_name := some "Alice"
    username := none }

/-- A plain short text message in `privChat`. -/
def msgHi : Message :=
  { id := 10
    chat := some privChat
    from_user := none
    text := some "hi"
    caption := none
    media := none
    reply_to_message := false
    forward_from := false
    forward_from_chat := false }

example : should_process_message defaultConfig msgHi = true := by decide

/-- Python `s.replace(p, r)` for a one-character pattern `p`: every
occurrence of `p` is replaced by `r`, scanning left to right. -/
def replaceChar (p : Char) (r : List Char) : List Char → List Char
  | [] => []
  | c :: cs => if c = p then r ++ replaceChar p r cs else c :: replaceChar p r cs

/-- The backtick character, U+0060. -/
def backtick : Char := Char.ofNat 96

/-- The escaping chain used throughout `format_message_info`:
`.replace('*', '\\*').replace('_', '\\_')` followed by the same replacement
for the backtick character. -/
def escapeChars (l : List Char) : List Char :=
  replaceChar backtick ['\\', backtick]
    (replaceChar '_' ['\\', '_'] (replaceChar '*' ['\\', '*'] l))

/-- String-level wrapper for the markdown escaping of `src/main.py`. -/
def escapeStr (s : String) : String :=
  String.mk (escapeChars s.data)

/-- Modelled from the spec's words (property list, escaping round-trip):
each occurrence of one of the three reserved characters is emitted with
exactly one backslash inserted before it, and every other character is
emitted unchanged. -/
def escMap (c : Char) : List Char :=
  if c = '*' ∨ c = '_' ∨ c = backtick then ['\\', c] else [c]

/-- Modelled from the spec's words: escaping as a single left-to-right pass
inserting one backslash before each reserved character. -/
def escapeSpec : List Char → List Char
  | [] => []
  | c :: cs => escMap c ++ escapeSpec cs

/-- Python slicing `s[:n]` on a string: the first `n` characters. -/
def pySlice (n : Nat) (s : String) : String :=
  String.mk (s.data.take n)

/-- The text preview of `format_message_info` (line 82):
`message.text[:200] + "..." if len(message.text) > 200 else message.text`. -/
def textPreview (s : String) : String :=
  if s.length > 200 then pySlice 200 s ++ "..." else s

/-- The caption preview of `format_message_info` (line 93):
`message.caption[:100] + "..." if len(message.caption) > 100 else message.caption`. -/
def captionPreview (s : String) : String :=
  if s.length > 100 then pySlice 100 s ++ "..." else s

/-- Python `a or b` for an optional string `a` and a fallback `b`:
`None` and `""` are falsy. -/
def pyOrStr (a : Option String) (b : String) : String :=
  match a with
  | some s => if s = "" then b else s
  | none => b

/-- The `f"@{u}" if u else "No username"` pattern of lines 57 and 71. -/
def usernameStr (u : Option String) : String :=
  match u with
  | some s => if s = "" then "No username" else "@" ++ s
  | none => "No username"

/-- Python `str.strip()`: drop whitespace from both ends. -/
def pyStrip (s : String) : String :=
  String.mk (((s.data.dropWhile Char.isWhitespace).reverse.dropWhile Char.isWhitespace).reverse)

/-- Python `str.title()` as used on the chat-type value (line 63): an
alphabetic character is uppercased when the previous character is not
alphabetic, lowercased otherwise. -/
def pyTitleAux : Bool → List Char → List Char
  | _, [] => []
  | prevAlpha, c :: cs =>
    if c.isAlpha then
      (if prevAlpha then c.toLower else c.toUpper) :: pyTitleAux true cs
    else c :: pyTitleAux false cs

/-- Python `str.title()` on a string. -/
def pyTitle (s : String) : String :=
  String.mk (pyTitleAux false s.data)

/-- Python `str(message.media).split('.')[-1]` (line 89). -/
def lastAfterDot (s : String) : String :=
  (s.splitOn ".").getLastD s

/-- The `info_parts` list built by `format_message_info` (`src/main.py`
lines 44-105), with the current timestamp passed in as `ts`. -/
def info_parts (ts : String) (m : Message) : List String :=
  let timeParts := ["🕒 *Time:* " ++ ts]
  let chatParts :=
    match m.chat with
    | some chat =>
      let chat_type := match chat.type with | some t => t | none => "unknown"
      let chat_title := escapeStr (pyOrStr chat.title (pyOrStr chat.first_name "Unknown"))
      let chat_username := usernameStr chat.username
      ["💬 *Chat:* " ++ chat_title,
       "🏷️ *Type:* " ++ pyTitle chat_type,
       "🔗 *Username:* " ++ chat_username,
       "🆔 *Chat ID:* `" ++ toString chat.id ++ "`"]
    | none => []
  let senderParts :=
    match m.from_user with
    | some sender =>
      let sender_name :=
        escapeStr (pyStrip (pyOrStr sender.first_name "" ++ " " ++ pyOrStr sender.last_name ""))
      let sender_username := usernameStr sender.username
      ["👤 *Sender:* " ++ sender_name,
       "🔗 *Sender Username:* " ++ sender_username,
       "🆔 *Sender ID:* `" ++ toString sender.id ++ "`"]
    | none => []
  let textParts :=
    match m.text with
    | some s => if s = "" then [] else ["📝 *Text:* " ++ escapeStr (textPreview s)]
    | none => []
  let mediaParts :=
    match m.media with
    | some mv =>
      let media_type := lastAfterDot mv
      ["📎 *Media:* " ++ media_type.toUpper] ++
        (match m.caption with
         | some c => if c = "" then [] else ["📄 *Caption:* " ++ escapeStr (captionPreview c)]
         | none => [])
    | none => []
  let replyParts :=
    if m.reply_to_message then ["↩️ *Reply:* This is a reply to another message"] else []
  let fwdParts :=
    if m.forward_from || m.forward_from_chat then
      ["🔄 *Forwarded:* This is a forwarded message"]
    else []
  timeParts ++ chatParts ++ senderParts ++ textParts ++ mediaParts ++ replyParts ++
    fwdParts ++ ["🔗 *Message ID:* `" ++ toString m.id ++ "`"]

/-- `format_message_info` (`src/main.py` lines 44-107): the parts joined by
newlines, `"\n".join(info_parts)`. -/
def format_message_info (ts : String) (m : Message) : String :=
  String.intercalate "\n" (info_parts ts m)

/-- Observable effects of one run of `handle_message`: evaluating the
filter predicate, calling the formatter, and one send attempt per
recipient (`ok` records whether the `aiogram_bot.send_message` call
succeeded; its failure is caught by the per-recipient `except`). -/
inductive Effect
  | filterEval
  | formatCall
  | send (uid : Int) (text : String) (ok : Bool)

/-- The self-sender check of `handle_message` (line 150):
`message.from_user and message.from_user.is_self`. -/
def isSelfSender (m : Message) : Bool :=
  match m.from_user with
  | some u => u.is_self
  | none => false

/-- `handle_message` (`src/main.py` lines 141-171) as an effect trace.
`ts` is the timestamp the formatter reads; `sendOk uid` tells whether the
delivery to `uid` succeeds (an exception is caught and logged, and the
loop continues either way). -/
def handle_message (cfg : Config) (ts : String) (sendOk : Int → Bool) (m : Message) :
    List Effect :=
  if should_process_message cfg m = false then [Effect.filterEval]
  else if isSelfSender m then [Effect.filterEval]
  else
    let message_info := format_message_info ts m
    Effect.filterEval :: Effect.formatCall ::
      cfg.TARGET_USERS.map (fun uid =>
        Effect.send uid ("📨 *New Message Detected*\n\n" ++ message_info) (sendOk uid))

/-- Recipients of the send attempts in a trace, in order. -/
def sendTargets (tr : List Effect) : List Int :=
  tr.filterMap fun e =>
    match e with
    | Effect.send uid _ _ => some uid
    | _ => none

/-- Texts of the send attempts in a trace, in order. -/
def sendTexts (tr : List Effect) : List String :=
  tr.filterMap fun e =>
    match e with
    | Effect.send _ t _ => some t
    | _ => none

/-- Number of formatter calls in a trace. -/
def countFormat (tr : List Effect) : Nat :=
  tr.countP fun e =>
    match e with
    | Effect.formatCall => true
    | _ => false

/-- Number of filter evaluations in a trace. -/
def countFilterEval (tr : List Effect) : Nat :=
  tr.countP fun e =>
    match e with
    | Effect.filterEval => true
    | _ => false

/-- Number of send attempts to a given recipient in a trace. -/
def countSendTo (uid : Int) (tr : List Effect) : Nat :=
  tr.countP fun e =>
    match e with
    | Effect.send u _ _ => u == uid
    | _ => false

/-- A send oracle under which every delivery fails. -/
def allSendsFail : Int → Bool := fun _ => false

/-- A send oracle under which every delivery succeeds. -/
def allSendsSucceed : Int → Bool := fun _ => true

theorem replaceChar_append (p : Char) (r : List Char) (l₁ l₂ : List Char) :
    replaceChar p r (l₁ ++ l₂) = replaceChar p r l₁ ++ replaceChar p r l₂ := by
  induction l₁ with
  | nil => rfl
  | cons c cs ih =>
    by_cases h : c = p
    · simp [replaceChar, h, ih, List.append_assoc]
    · simp [replaceChar, h, ih]

theorem escapeChars_append (l₁ l₂ : List Char) :
    escapeChars (l₁ ++ l₂) = escapeChars l₁ ++ escapeChars l₂ := by
  unfold escapeChars
  rw [replaceChar_append, replaceChar_append, replaceChar_append]

theorem escapeChars_single (c : Char) : escapeChars [c] = escMap c := by
  by_cases h1 : c = '*'
  · subst h1; decide
  by_cases h2 : c = '_'
  · subst h2; decide
  by_cases h3 : c = backtick
  · subst h3; decide
  simp [escapeChars, replaceChar, escMap, h1, h2, h3]

theorem escapeChars_eq_spec (l : List Char) : escapeChars l = escapeSpec l := by
  induction l with
  | nil => rfl
  | cons c cs ih =>
    have h : c :: cs = [c] ++ cs := rfl
    rw [h, escapeChars_append, escapeChars_single, ih]
    rfl

theorem escapeSpec_length_le (l : List Char) : (escapeSpec l).length ≤ 2 * l.length := by
  induction l with
  | nil => simp [escapeSpec]
  | cons c cs ih =>
    have h : (escMap c).length ≤ 2 := by
      by_cases h1 : c = '*' ∨ c = '_' ∨ c = backtick <;> simp [escMap, h1]
    simp only [escapeSpec, List.length_append, List.length_cons]
    omega

theorem sendTargets_map (txt : String) (f : Int → Bool) (l : List Int) :
    sendTargets (l.map fun uid => Effect.send uid txt (f uid)) = l := by
  induction l with
  | nil => rfl
  | cons u us ih => simp [sendTargets, List.filterMap] at ih ⊢; exact ih

theorem sendTexts_map (txt : String) (f : Int → Bool) (l : List Int) :
    sendTexts (l.map fun uid => Effect.send uid txt (f uid)) = l.map fun _ => txt := by
  induction l with
  | nil => rfl
  | cons u us ih => simp [sendTexts, List.filterMap] at ih ⊢; exact ih

theorem countFormat_map (txt : String) (f : Int → Bool) (l : List Int) :
    countFormat (l.map fun uid => Effect.send uid txt (f uid)) = 0 := by
  induction l with
  | nil => rfl
  | cons u us ih => simp [countFormat, List.countP_cons] at ih ⊢

theorem countFilterEval_map (txt : String) (f : Int → Bool) (l : List Int) :
    countFilterEval (l.map fun uid => Effect.send uid txt (f uid)) = 0 := by
  induction l with
  | nil => rfl
  | cons u us ih => simp [countFilterEval, List.countP_cons] at ih ⊢

theorem countSendTo_map (uid : Int) (txt : String) (f : Int → Bool) (l : List Int) :
    countSendTo uid (l.map fun u => Effect.send u txt (f u)) = l.count uid := by
  induction l with
  | nil => rfl
  | cons u us ih =>
    simp only [List.map_cons, countSendTo, List.countP_cons, List.count_cons] at ih ⊢
    rw [ih]

theorem handle_message_rejected (cfg : Config) (ts : String) (f : Int → Bool) (m : Message)
    (h : should_process_message cfg m = false) :
    handle_message cfg ts f m = [Effect.filterEval] := by
  simp [handle_message, h]

theorem handle_message_self (cfg : Config) (ts : String) (f : Int → Bool) (m : Message)
    (h : isSelfSender m = true) :
    handle_message cfg ts f m = [Effect.filterEval] := by
  unfold handle_message
  by_cases hp : should_process_message cfg m = false <;> simp [hp, h]

theorem handle_message_accepted (cfg : Config) (ts : String) (f : Int → Bool) (m : Message)
    (h1 : should_process_message cfg m = true) (h2 : isSelfSender m = false) :
    handle_message cfg ts f m =
      Effect.filterEval :: Effect.formatCall ::
        cfg.TARGET_USERS.map (fun uid =>
          Effect.send uid ("📨 *New Message Detected*\n\n" ++ format_message_info ts m)
            (f uid)) := by
  simp [handle_message, h1, h2]

theorem escapeStr_append (a b : String) :
    escapeStr (a ++ b) = escapeStr a ++ escapeStr b := by
  unfold escapeStr
  have h : (a ++ b).data = a.data ++ b.data := by
    cases a; cases b; rfl
  rw [h, escapeChars_append]
  rfl

theorem escapeStr_dots : escapeStr "..." = "..." := by decide

theorem escapeStr_length_le (s : String) : (escapeStr s).length ≤ 2 * s.length := by
  show (escapeChars s.data).length ≤ 2 * s.data.length
  rw [escapeChars_eq_spec]
  exact escapeSpec_length_le s.data

theorem pySlice_length_le (n : Nat) (s : String) : (pySlice n s).length ≤ n := by
  show (s.data.take n).length ≤ n
  simp [List.length_take]

theorem countFilterEval_handle (cfg : Config) (ts : String) (f : Int → Bool) (m : Message) :
    countFilterEval (handle_message cfg ts f m) = 1 := by
  cases hp : should_process_message cfg m with
  | false => rw [handle_message_rejected cfg ts f m hp]; rfl
  | true =>
    cases hs : isSelfSender m with
    | true => rw [handle_message_self cfg ts f m hs]; rfl
    | false =>
      rw [handle_message_accepted cfg ts f m hp hs]
      have h := countFilterEval_map
        ("📨 *New Message Detected*\n\n" ++ format_message_info ts m) f cfg.TARGET_USERS
      simp [countFilterEval, List.countP_cons] at h ⊢

theorem trace_counts_accepted (cfg : Config) (ts : String) (f : Int → Bool) (m : Message)
    (h1 : should_process_message cfg m = true) (h2 : isSelfSender m = false) :
    countFormat (handle_message cfg ts f m) = 1 ∧
    sendTargets (handle_message cfg ts f m) = cfg.TARGET_USERS ∧
    sendTexts (handle_message cfg ts f m) =
      cfg.TARGET_USERS.map (fun _ => "📨 *New Message Detected*\n\n" ++ format_message_info ts m) ∧
    (∀ uid : Int, countSendTo uid (handle_message cfg ts f m) = cfg.TARGET_USERS.count uid) := by
  rw [handle_message_accepted cfg ts f m h1 h2]
  refine ⟨?_, ?_, ?_, ?_⟩
  · have h := countFormat_map
      ("📨 *New Message Detected*\n\n" ++ format_message_info ts m) f cfg.TARGET_USERS
    simp [countFormat, List.countP_cons] at h ⊢
  · have h := sendTargets_map
      ("📨 *New Message Detected*\n\n" ++ format_message_info ts m) f cfg.TARGET_USERS
    simp only [sendTargets, List.filterMap_cons] at h ⊢
    exact h
  · have h := sendTexts_map
      ("📨 *New Message Detected*\n\n" ++ format_message_info ts m) f cfg.TARGET_USERS
    simp only [sendTexts, List.filterMap_cons] at h ⊢
    exact h
  · intro uid
    have h := countSendTo_map uid
      ("📨 *New Message Detected*\n\n" ++ format_message_info ts m) f cfg.TARGET_USERS
    simp [countSendTo, List.countP_cons] at h ⊢
    omega

theorem chatTypeRejected_iff (cfg : Config) (ot : Option String) :
    chatTypeRejected cfg ot = true ↔
      ((ot = some "private" ∧ cfg.INCLUDE_PRIVATE_CHATS = false) ∨
       ((ot = some "group" ∨ ot = some "supergroup") ∧ cfg.INCLUDE_GROUPS = false) ∨
       (ot = some "channel" ∧ cfg.INCLUDE_CHANNELS = false)) := by
  cases ot with
  | none => simp [chatTypeRejected]
  | some t =>
    simp only [chatTypeRejected, Option.some.injEq]
    split_ifs with hA hB hC <;> simp_all

/-- The same message with its sender's `is_self` flag replaced by `b`
(identity when there is no sender). -/
def setSelf (m : Message) (b : Bool) : Message :=
  { m with from_user := m.from_user.map fun u => { u with is_self := b } }

/-- A fixed timestamp for the concrete runs. -/
def ts0 : String := "2024-05-01 12:00:00"

/-- The default configuration with a minimum message length of 5. -/
def cfgMin5 : Config :=
  { defaultConfig with MIN_MESSAGE_LENGTH := 5 }

/-- The default configuration with group monitoring turned off. -/
def cfgNoGroups : Config :=
  { defaultConfig with INCLUDE_GROUPS := false }

/-- The default configuration with one excluded chat id. -/
def cfgExcluding : Config :=
  { defaultConfig with EXCLUDED_CHATS := [-1001234567890] }

/-- A supergroup chat. -/
def groupChat : Chat :=
  { id := -100777
    type := some "supergroup"
    title := some "Team"
    first_name := none
    username := some "team_chat" }

/-- A long-enough text message in `groupChat`. -/
def msgGroup : Message :=
  { id := 11
    chat := some groupChat
    from_user := none
    text := some "hello there"
    caption := none
    media := none
    reply_to_message := false
    forward_from := false
    forward_from_chat := false }

/-- The chat whose id appears in `cfgExcluding.EXCLUDED_CHATS`. -/
def excludedChat : Chat :=
  { id := -1001234567890
    type := some "supergroup"
    title := some "Noisy"
    first_name := none
    username := none }

/-- A message sitting in the excluded chat. -/
def msgExcluded : Message :=
  { id := 12
    chat := some excludedChat
    from_user := none
    text := some "spam spam"
    caption := none
    media := none
    reply_to_message := false
    forward_from := false
    forward_from_chat := false }

/-- A message whose `text` field is present but empty: Python truthiness
makes the length rule skip it. -/
def msgEmptyText : Message :=
  { id := 13
    chat := some privChat
    from_user := none
    text := some ""
    caption := none
    media := none
    reply_to_message := false
    forward_from := false
    forward_from_chat := false }

/-- The listening account itself as a sender. -/
def selfUser : User :=
  { id := 42
    first_name := some "Me"
    last_name := none
    username := some "me"
    is_self := true }

/-- A message authored by the listening account that passes the filter. -/
def msgSelf : Message :=
  { id := 14
    chat := some privChat
    from_user := some selfUser
    text := some "note to self"
    caption := none
    media := none
    reply_to_message := false
    forward_from := false
    forward_from_chat := false }

/-- 250 copies of the letter a. -/
def s250 : String := String.mk (List.replicate 250 'a')

/-- 200 copies of the letter a. -/
def s200 : String := String.mk (List.replicate 200 'a')

/-- 150 copies of the letter b. -/
def c150 : String := String.mk (List.replicate 150 'b')

/-- 201 asterisks: a text whose escaped truncation doubles in size. -/
def sStar : String := String.mk (List.replicate 201 '*')

/-- 101 underscores: a caption whose escaped truncation doubles in size. -/
def cStar : String := String.mk (List.replicate 101 '_')

/-- C1 (counterexample): `msgEmptyText` carries a text field (of length 0),
every other filter rule passes, its length 0 is below
`MIN_MESSAGE_LENGTH = 1`, yet `should_process_message` accepts it — the
claim predicts rejection.  Python truthiness makes
`message.text and len(message.text) < MIN_MESSAGE_LENGTH` false for an
empty text. -/
theorem c1_counterexample :
    msgEmptyText.text = some "" ∧
    ("" : String).length < defaultConfig.MIN_MESSAGE_LENGTH ∧
    chatTypeRejected defaultConfig privChat.type = false ∧
    msgEmptyText.media = none ∧
    should_process_message defaultConfig msgEmptyText = true := by
  refine ⟨rfl, by decide, by decide, rfl, by decide⟩

/-- C1 (amended): with all other filter rules passing, a message carrying a
NONEMPTY text of length L is rejected by `should_process_message` iff
L < `MIN_MESSAGE_LENGTH` (so length exactly `MIN_MESSAGE_LENGTH` is
accepted); a message with no text is never rejected by the length rule,
and an empty text field behaves like a missing one. -/
theorem c1_length_filter (cfg : Config) (m : Message) (chat : Chat)
    (h1 : m.chat = some chat) (h2 : chat.id ∉ cfg.EXCLUDED_CHATS)
    (h3 : chatTypeRejected cfg chat.type = false)
    (h4 : ¬(m.media.isSome ∧ cfg.INCLUDE_MEDIA = false)) :
    (∀ s : String, m.text = some s →
      (should_process_message cfg m = false ↔
        s ≠ "" ∧ s.length < cfg.MIN_MESSAGE_LENGTH)) ∧
    (m.text = none → should_process_message cfg m = true) := by
  have hmain : should_process_message cfg m = false ↔ textTooShort cfg m.text = true := by
    by_cases htt : textTooShort cfg m.text = true
    · simp [should_process_message, h1, h2, h3, htt]
    · simp [should_process_message, h1, h2, h3, htt, h4]
  constructor
  · intro s hs
    rw [hmain, hs]
    simp [textTooShort]
  · intro hnone
    have htt : textTooShort cfg m.text = false := by rw [hnone]; rfl
    simp [should_process_message, h1, h2, h3, htt, h4]

/-- C1 witness: under `cfgMin5` (minimum length 5) the two-character text
of `msgHi` is rejected, and the boundary instance with minimum length 2 is
accepted. -/
theorem c1_length_filter_witness :
    (should_process_message cfgMin5 msgHi = false ↔
      ("hi" : String) ≠ "" ∧ ("hi" : String).length < cfgMin5.MIN_MESSAGE_LENGTH) ∧
    should_process_message cfgMin5 msgHi = false :=
  ⟨(c1_length_filter cfgMin5 msgHi privChat rfl (by decide) (by decide) (by decide)).1
      "hi" rfl,
   by decide⟩

/-- C2: the markdown escaping applied by `format_message_info` to the chat
title, sender name, text preview and caption preview rewrites its input by
inserting exactly one backslash before each occurrence of an asterisk,
underscore or backtick and emitting every other character unchanged —
`escapeStr` coincides with the single-pass `escapeSpec` modelled from the
spec's words. -/
theorem c2_markdown_escaping (s : String) :
    (escapeStr s).data = escapeSpec s.data := by
  show escapeChars s.data = escapeSpec s.data
  exact escapeChars_eq_spec s.data

/-- C7: with the other filter rules passing, `should_process_message`
rejects a message exactly when its chat type is private and private chats
are excluded, group or supergroup and groups are excluded, or channel and
channels are excluded; a message with an unset chat type is never rejected
by the type rule. -/
theorem c7_chat_type_filter (cfg : Config) (m : Message) (chat : Chat)
    (h1 : m.chat = some chat) (h2 : chat.id ∉ cfg.EXCLUDED_CHATS)
    (h3 : textTooShort cfg m.text = false)
    (h4 : ¬(m.media.isSome ∧ cfg.INCLUDE_MEDIA = false)) :
    (should_process_message cfg m = false ↔
      ((chat.type = some "private" ∧ cfg.INCLUDE_PRIVATE_CHATS = false) ∨
       ((chat.type = some "group" ∨ chat.type = some "supergroup") ∧
         cfg.INCLUDE_GROUPS = false) ∨
       (chat.type = some "channel" ∧ cfg.INCLUDE_CHANNELS = false))) ∧
    (chat.type = none → should_process_message cfg m = true) := by
  have hmain : should_process_message cfg m = false ↔
      chatTypeRejected cfg chat.type = true := by
    by_cases hct : chatTypeRejected cfg chat.type = true
    · simp [should_process_message, h1, h2, hct]
    · simp [should_process_message, h1, h2, hct, h3, h4]
  constructor
  · rw [hmain, chatTypeRejected_iff]
  · intro hnone
    have hct : chatTypeRejected cfg chat.type = false := by rw [hnone]; rfl
    simp [should_process_message, h1, h2, hct, h3, h4]

/-- C7 witness: with groups excluded, the supergroup message `msgGroup`
satisfies the characterization (and is indeed rejected). -/
theorem c7_chat_type_filter_witness :
    (should_process_message cfgNoGroups msgGroup = false ↔
      ((groupChat.type = some "private" ∧ cfgNoGroups.INCLUDE_PRIVATE_CHATS = false) ∨
       ((groupChat.type = some "group" ∨ groupChat.type = some "supergroup") ∧
         cfgNoGroups.INCLUDE_GROUPS = false) ∨
       (groupChat.type = some "channel" ∧ cfgNoGroups.INCLUDE_CHANNELS = false))) ∧
    should_process_message cfgNoGroups msgGroup = false :=
  ⟨(c7_chat_type_filter cfgNoGroups msgGroup groupChat rfl (by decide) (by decide)
      (by decide)).1,
   by decide⟩

/-- C8: a message whose chat id belongs to `EXCLUDED_CHATS` is rejected by
`should_process_message` whatever its other fields, and `handle_message`
issues no send attempt for it. -/
theorem c8_excluded_chat (cfg : Config) (ts : String) (f : Int → Bool) (m : Message)
    (chat : Chat) (h1 : m.chat = some chat) (h2 : chat.id ∈ cfg.EXCLUDED_CHATS) :
    should_process_message cfg m = false ∧
    sendTargets (handle_message cfg ts f m) = [] := by
  have hp : should_process_message cfg m = false := by
    simp [should_process_message, h1, h2]
  exact ⟨hp, by rw [handle_message_rejected cfg ts f m hp]; rfl⟩

/-- C8 witness: the concrete message in the excluded chat is dropped with
no delivery attempts. -/
theorem c8_excluded_chat_witness :
    should_process_message cfgExcluding msgExcluded = false ∧
    sendTargets (handle_message cfgExcluding ts0 allSendsSucceed msgExcluded) = [] :=
  c8_excluded_chat cfgExcluding ts0 allSendsSucceed msgExcluded excludedChat rfl
    (by decide)

/-- C3: `format_message_info` truncates the message text to its first 200
characters plus the ellipsis marker exactly when it is longer than 200
characters (a 200-character text is left as is), renders the resulting
preview on the text line, and truncates captions at 100 characters the
same way. -/
theorem c3_truncation (ts : String) (m : Message) (s c : String) :
    (s.length > 200 → textPreview s = pySlice 200 s ++ "...") ∧
    (s.length ≤ 200 → textPreview s = s) ∧
    (c.length > 100 → captionPreview c = pySlice 100 c ++ "...") ∧
    (c.length ≤ 100 → captionPreview c = c) ∧
    (m.text = some s → s ≠ "" →
      ("📝 *Text:* " ++ escapeStr (textPreview s)) ∈ info_parts ts m) := by
  refine ⟨?_, ?_, ?_, ?_, ?_⟩
  · intro h; unfold textPreview; rw [if_pos h]
  · intro h; unfold textPreview; rw [if_neg (by omega)]
  · intro h; unfold captionPreview; rw [if_pos h]
  · intro h; unfold captionPreview; rw [if_neg (by omega)]
  · intro ht hs
    simp [info_parts, ht, hs]

set_option maxRecDepth 4000 in
/-- C3 witness: a 250-character text is truncated with the marker, a
200-character one is untouched, a 150-character caption is truncated, and
the text line of `msgHi` is present in the formatted parts. -/
theorem c3_truncation_witness :
    textPreview s250 = pySlice 200 s250 ++ "..." ∧
    textPreview s200 = s200 ∧
    captionPreview c150 = pySlice 100 c150 ++ "..." ∧
    ("📝 *Text:* " ++ escapeStr (textPreview "hi")) ∈ info_parts ts0 msgHi :=
  ⟨(c3_truncation ts0 msgHi s250 c150).1 (by decide),
   (c3_truncation ts0 msgHi s200 c150).2.1 (by decide),
   (c3_truncation ts0 msgHi s250 c150).2.2.1 (by decide),
   (c3_truncation ts0 msgHi "hi" c150).2.2.2.2 rfl (by decide)⟩

/-- C9: escaping happens after truncation — for a text over 200 characters
the rendered preview is the escaped first 200 characters followed by the
never-escaped ellipsis, and that escaped portion is at most 400 characters
long; the caption behaves the same at the 100-character bound. -/
theorem c9_escape_after_truncation (s c : String) :
    (s.length > 200 →
      escapeStr (textPreview s) = escapeStr (pySlice 200 s) ++ "..." ∧
      (escapeStr (pySlice 200 s)).length ≤ 400) ∧
    (c.length > 100 →
      escapeStr (captionPreview c) = escapeStr (pySlice 100 c) ++ "..." ∧
      (escapeStr (pySlice 100 c)).length ≤ 200) := by
  constructor
  · intro h
    constructor
    · unfold textPreview
      rw [if_pos h, escapeStr_append, escapeStr_dots]
    · have h1 := escapeStr_length_le (pySlice 200 s)
      have h2 := pySlice_length_le 200 s
      omega
  · intro h
    constructor
    · unfold captionPreview
      rw [if_pos h, escapeStr_append, escapeStr_dots]
    · have h1 := escapeStr_length_le (pySlice 100 c)
      have h2 := pySlice_length_le 100 c
      omega

set_option maxRecDepth 4000 in
/-- C9 witness: 201 asterisks and 101 underscores exercise both bounds. -/
theorem c9_escape_after_truncation_witness :
    (escapeStr (textPreview sStar) = escapeStr (pySlice 200 sStar) ++ "..." ∧
      (escapeStr (pySlice 200 sStar)).length ≤ 400) ∧
    (escapeStr (captionPreview cStar) = escapeStr (pySlice 100 cStar) ++ "..." ∧
      (escapeStr (pySlice 100 cStar)).length ≤ 200) :=
  ⟨(c9_escape_after_truncation sStar cStar).1 (by decide),
   (c9_escape_after_truncation sStar cStar).2 (by decide)⟩

/-- C4: one run of `handle_message` evaluates the filter at most once, and
for an accepted (non-self) message it calls the formatter exactly once and
issues exactly as many send attempts per recipient as that recipient
occurs in `TARGET_USERS` — no message is reported twice from one event. -/
theorem c4_single_dispatch (cfg : Config) (ts : String) (f : Int → Bool) (m : Message) :
    countFilterEval (handle_message cfg ts f m) ≤ 1 ∧
    (should_process_message cfg m = true → isSelfSender m = false →
      countFormat (handle_message cfg ts f m) = 1 ∧
      ∀ uid : Int,
        countSendTo uid (handle_message cfg ts f m) = cfg.TARGET_USERS.count uid) := by
  refine ⟨Nat.le_of_eq (countFilterEval_handle cfg ts f m), ?_⟩
  intro h1 h2
  exact ⟨(trace_counts_accepted cfg ts f m h1 h2).1,
    (trace_counts_accepted cfg ts f m h1 h2).2.2.2⟩

/-- C4 witness: the accepted `msgHi` yields one format call and one send
attempt to the single configured recipient. -/
theorem c4_single_dispatch_witness :
    countFilterEval (handle_message defaultConfig ts0 allSendsSucceed msgHi) ≤ 1 ∧
    countFormat (handle_message defaultConfig ts0 allSendsSucceed msgHi) = 1 ∧
    countSendTo 7517848621 (handle_message defaultConfig ts0 allSendsSucceed msgHi) =
      defaultConfig.TARGET_USERS.count 7517848621 ∧
    defaultConfig.TARGET_USERS.count 7517848621 = 1 :=
  ⟨(c4_single_dispatch defaultConfig ts0 allSendsSucceed msgHi).1,
   ((c4_single_dispatch defaultConfig ts0 allSendsSucceed msgHi).2 (by decide)
      (by decide)).1,
   ((c4_single_dispatch defaultConfig ts0 allSendsSucceed msgHi).2 (by decide)
      (by decide)).2 7517848621,
   by decide⟩

/-- C5: for an accepted message the attempted recipients are always the
whole of `TARGET_USERS`, whatever the per-recipient success oracle — a
failed delivery prevents neither the remaining attempts nor the (single)
processing of the message. -/
theorem c5_delivery_independence (cfg : Config) (ts : String) (f g : Int → Bool)
    (m : Message) (h1 : should_process_message cfg m = true)
    (h2 : isSelfSender m = false) :
    sendTargets (handle_message cfg ts f m) = cfg.TARGET_USERS ∧
    sendTargets (handle_message cfg ts f m) = sendTargets (handle_message cfg ts g m) ∧
    countFormat (handle_message cfg ts f m) = 1 ∧
    countFilterEval (handle_message cfg ts f m) = 1 := by
  have hf := trace_counts_accepted cfg ts f m h1 h2
  have hg := trace_counts_accepted cfg ts g m h1 h2
  exact ⟨hf.2.1, by rw [hf.2.1, hg.2.1], hf.1, countFilterEval_handle cfg ts f m⟩

/-- C5 witness: even when every delivery fails, all recipients are still
attempted exactly as in the all-success run, and the message is processed
once. -/
theorem c5_delivery_independence_witness :
    sendTargets (handle_message defaultConfig ts0 allSendsFail msgHi) =
      defaultConfig.TARGET_USERS ∧
    sendTargets (handle_message defaultConfig ts0 allSendsFail msgHi) =
      sendTargets (handle_message defaultConfig ts0 allSendsSucceed msgHi) ∧
    countFormat (handle_message defaultConfig ts0 allSendsFail msgHi) = 1 ∧
    countFilterEval (handle_message defaultConfig ts0 allSendsFail msgHi) = 1 :=
  c5_delivery_independence defaultConfig ts0 allSendsFail allSendsSucceed msgHi
    (by decide) (by decide)

/-- C6: a message from a sender flagged `is_self` produces no format call
and no send attempt, yet the filter predicate is still evaluated (the self
check sits in the dispatch loop, after the predicate), and
`should_process_message` is invariant under the `is_self` flag — it never
reads it. -/
theorem c6_self_sender (cfg : Config) (ts : String) (f : Int → Bool) (m : Message)
    (u : User) (h1 : m.from_user = some u) (h2 : u.is_self = true) :
    countFormat (handle_message cfg ts f m) = 0 ∧
    sendTargets (handle_message cfg ts f m) = [] ∧
    countFilterEval (handle_message cfg ts f m) = 1 ∧
    (∀ b : Bool, should_process_message cfg (setSelf m b) = should_process_message cfg m) := by
  have hs : isSelfSender m = true := by simp [isSelfSender, h1, h2]
  have ht := handle_message_self cfg ts f m hs
  refine ⟨by rw [ht]; rfl, by rw [ht]; rfl, countFilterEval_handle cfg ts f m, ?_⟩
  intro b
  cases m
  rfl

/-- C6 witness: the self-authored `msgSelf` passes the filter but is still
dropped with no format call and no delivery. -/
theorem c6_self_sender_witness :
    countFormat (handle_message defaultConfig ts0 allSendsSucceed msgSelf) = 0 ∧
    sendTargets (handle_message defaultConfig ts0 allSendsSucceed msgSelf) = [] ∧
    countFilterEval (handle_message defaultConfig ts0 allSendsSucceed msgSelf) = 1 ∧
    should_process_message defaultConfig (setSelf msgSelf false) =
      should_process_message defaultConfig msgSelf ∧
    should_process_message defaultConfig msgSelf = true :=
  have h := c6_self_sender defaultConfig ts0 allSendsSucceed msgSelf selfUser rfl rfl
  ⟨h.1, h.2.1, h.2.2.1, h.2.2.2 false, by decide⟩

/-- C10: the string handed to the relay for an accepted message is the
fixed header line, a blank line, then the report, and every configured
recipient is sent that identical string, the report being formatted once
before the recipient loop. -/
theorem c10_header_and_single_format (cfg : Config) (ts : String) (f : Int → Bool)
    (m : Message) (h1 : should_process_message cfg m = true)
    (h2 : isSelfSender m = false) :
    sendTexts (handle_message cfg ts f m) =
      cfg.TARGET_USERS.map
        (fun _ => "📨 *New Message Detected*\n\n" ++ format_message_info ts m) ∧
    countFormat (handle_message cfg ts f m) = 1 :=
  ⟨(trace_counts_accepted cfg ts f m h1 h2).2.2.1,
   (trace_counts_accepted cfg ts f m h1 h2).1⟩

/-- C10 witness: the single configured recipient receives exactly the
header-prefixed report for `msgHi`. -/
theorem c10_header_and_single_format_witness :
    sendTexts (handle_message defaultConfig ts0 allSendsSucceed msgHi) =
      ["📨 *New Message Detected*\n\n" ++ format_message_info ts0 msgHi] ∧
    countFormat (handle_message defaultConfig ts0 allSendsSucceed msgHi) = 1 := by
  have h := c10_header_and_single_format defaultConfig ts0 allSendsSucceed msgHi
    (by decide) (by decide)
  exact ⟨by rw [h.1]; rfl, h.2⟩
